import Mathlib

/-
  Shallow embedding of the rule-based compliance evaluator of guardly-ai:
  `runAgent4Simulation` / `runAgent5Simulation` from `src/lib/automationData.ts`
  (the same code appears in the unnamed automation module with `transaction_id`
  in place of `id`).  JS numbers are modelled by exact rationals (ℚ); JS
  number-to-string interpolation is abstracted by an exact rational renderer
  `fmtQ` (inert for all properties proved here); `Date().toISOString()` is an
  explicit `now` argument; the non-null assertion in `runAgent5Simulation`
  (`transactions.find(...)!`) is modelled by `Option`, with `none` standing
  for the runtime fault on a missed lookup.
-/

namespace Guardly

/-- `severity: 'high' | 'medium' | 'low'` from the `AutomationClause` /
`ParsedClause` interfaces. -/
inductive Severity
  | high
  | medium
  | low
deriving DecidableEq, Repr, Inhabited

/-- `type: 'TAX_MISMATCH' | 'BIDDING_REQUIREMENT' | 'MISSING_DOCUMENT'` from
the `Violation` interface. -/
inductive VKind
  | TAX_MISMATCH
  | BIDDING_REQUIREMENT
  | MISSING_DOCUMENT
deriving DecidableEq, Repr, Inhabited

/-- `compliance_status: 'VIOLATION' | 'COMPLIANT'` from the
`ComplianceResult` interface. -/
inductive Status
  | VIOLATION
  | COMPLIANT
deriving DecidableEq, Repr, Inhabited

/-- `priority: 'HIGH' | 'MEDIUM' | 'LOW'` from the `Recommendation`
interface. -/
inductive Priority
  | HIGH
  | MEDIUM
  | LOW
deriving DecidableEq, Repr, Inhabited

/-- The `ParsedClause` interface of `PipelineContext.tsx` (fields the
evaluator never reads - `id`, `rule_name`, `regulation_id`, `description` -
are kept for fidelity). -/
structure ParsedClause where
  id : String
  clause_id : String
  regulation_id : String
  rule_name : String
  transaction_types : List String
  amount_threshold : ℚ
  tax_rate : Option ℚ
  min_bids : Option ℕ
  required_documents : List String
  severity : Severity
  description : Option String
deriving DecidableEq, Repr, Inhabited

/-- The `Transaction` interface of `PipelineContext.tsx`. -/
structure Transaction where
  id : String
  amount : ℚ
  vendor_name : String
  category : String
  department : Option String
  tax_paid : ℚ
  bids_count : Option ℕ
  documents_attached : List String
  date : String
  description : Option String
  data_completeness : Option ℚ
  missing_fields : Option (List String)
deriving DecidableEq, Repr, Inhabited

/-- The `Violation` interface: one record type with optional kind-specific
fields, exactly as in the source. -/
structure Violation where
  type : VKind
  clause_id : String
  severity : Severity
  description : String
  expected_tax : Option ℚ
  claimed_tax : Option ℚ
  expected_bids : Option ℕ
  actual_bids : Option ℕ
  required_doc : Option String
  corrective_action : Option String
deriving DecidableEq, Repr, Inhabited

/-- The `ComplianceResult` interface. -/
structure ComplianceResult where
  transaction_id : String
  compliance_status : Status
  violations : List Violation
  overall_risk_score : ℚ
  checked_at : String
deriving DecidableEq, Repr, Inhabited

/-- The `Recommendation` interface. -/
structure Recommendation where
  violation_type : VKind
  action : String
  priority : Priority
  deadline : String
deriving DecidableEq, Repr, Inhabited

/-- The inline `transaction_details` object of the `AuditReport` interface. -/
structure TransactionDetails where
  amount : ℚ
  vendor : String
  category : String
  tax_paid : ℚ
deriving DecidableEq, Repr, Inhabited

/-- The `AuditReport` interface. -/
structure AuditReport where
  report_id : String
  transaction_id : String
  status : Status
  summary : String
  violations : List Violation
  recommendations : List Recommendation
  risk_score : ℚ
  transaction_details : TransactionDetails
deriving DecidableEq, Repr, Inhabited

/-- ASCII lowering of a string's characters, modelling JS
`s.toLowerCase()` on the ASCII strings the program uses. -/
def lowerChars (s : String) : List Char :=
  s.data.map Char.toLower

/-- `hay.includes(needle)` of JS on character lists: `needle` occurs as a
contiguous substring of `hay`. -/
def containsSub (needle : List Char) : List Char → Bool
  | [] => needle.isEmpty
  | c :: t => needle.isPrefixOf (c :: t) || containsSub needle t

/-- `parseFloat(x.toFixed(2))`: rounding to two decimal places (half away
from zero on the nonnegative values this program produces). -/
def round2 (q : ℚ) : ℚ :=
  (⌊q * 100 + 1 / 2⌋ : ℚ) / 100

/-- JS `Math.round`: nearest integer, half toward positive infinity. -/
def jsRound (q : ℚ) : ℤ :=
  ⌊q + 1 / 2⌋

/-- Exact rendering of a rational, standing in for JS number
interpolation inside template strings (exact on the integers the demo data
produces). -/
def fmtQ (q : ℚ) : String :=
  if q.den = 1 then toString q.num else toString q.num ++ "/" ++ toString q.den

/-- JS `s || d` on an optional string: the default replaces both `undefined`
and the falsy empty string. -/
def jsOrString (s : Option String) (d : String) : String :=
  match s with
  | none => d
  | some s => if s = "" then d else s

/-- The TAX_MISMATCH block of `runAgent4Simulation`
(automationData.ts lines 110-124): runs iff `clause.tax_rate !== undefined`;
pushes one violation iff `txn.tax_paid < expectedTax * 0.95`. -/
def taxCheck (clause : ParsedClause) (txn : Transaction) : List Violation :=
  match clause.tax_rate with
  | none => []
  | some rate =>
    let expectedTax := txn.amount * rate / 100
    if txn.tax_paid < expectedTax * (95 / 100) then
      [{ type := VKind.TAX_MISMATCH
         clause_id := clause.clause_id
         severity := clause.severity
         description := "Tax mismatch: Expected ₹" ++ fmtQ expectedTax ++
           ", claimed ₹" ++ fmtQ txn.tax_paid
         expected_tax := some expectedTax
         claimed_tax := some txn.tax_paid
         expected_bids := none
         actual_bids := none
         required_doc := none
         corrective_action := some ("Adjust tax to ₹" ++ fmtQ expectedTax) }]
    else []

/-- The BIDDING_REQUIREMENT block of `runAgent4Simulation`
(automationData.ts lines 127-140): runs iff `clause.min_bids !== undefined`;
`actualBids = txn.bids_count || 0`; pushes one violation iff
`actualBids < clause.min_bids`. -/
def bidCheck (clause : ParsedClause) (txn : Transaction) : List Violation :=
  match clause.min_bids with
  | none => []
  | some minBids =>
    let actualBids := txn.bids_count.getD 0
    if actualBids < minBids then
      [{ type := VKind.BIDDING_REQUIREMENT
         clause_id := clause.clause_id
         severity := clause.severity
         description := "Requires " ++ toString minBids ++
           " competitive bids; only " ++ toString actualBids ++ " found"
         expected_tax := none
         claimed_tax := none
         expected_bids := some minBids
         actual_bids := some actualBids
         required_doc := none
         corrective_action := some ("Obtain " ++ toString (minBids - actualBids) ++
           " more competitive bid(s)") }]
    else []

/-- Whether a required document tag is considered attached:
`txn.documents_attached.some(doc => doc.toLowerCase().includes(reqDoc.toLowerCase()))`
(automationData.ts line 150). -/
def hasDoc (txn : Transaction) (reqDoc : String) : Bool :=
  txn.documents_attached.any fun doc => containsSub (lowerChars reqDoc) (lowerChars doc)

/-- The violation pushed for one missing required document tag
(automationData.ts lines 152-159). -/
def docViolation (clause : ParsedClause) (reqDoc : String) : Violation :=
  { type := VKind.MISSING_DOCUMENT
    clause_id := clause.clause_id
    severity := clause.severity
    description := "Required document \x27" ++ reqDoc ++ "\x27 is missing"
    expected_tax := none
    claimed_tax := none
    expected_bids := none
    actual_bids := none
    required_doc := some reqDoc
    corrective_action := some ("Attach " ++ reqDoc ++ " to transaction") }

/-- The MISSING_DOCUMENT block of `runAgent4Simulation`
(automationData.ts lines 143-162): guarded by
`clause.required_documents && clause.required_documents.length > 0`,
then one push per unmatched tag, in tag order. -/
def docCheck (clause : ParsedClause) (txn : Transaction) : List Violation :=
  if clause.required_documents.length > 0 then
    clause.required_documents.flatMap fun reqDoc =>
      if hasDoc txn reqDoc then [] else [docViolation clause reqDoc]
  else []

/-- The body of the `clauses.forEach` of `runAgent4Simulation`
(automationData.ts lines 104-163): two early returns (category membership,
amount threshold), then the tax, bidding and document pushes in that
order. -/
def checkClause (txn : Transaction) (clause : ParsedClause) : List Violation :=
  if ¬ (clause.transaction_types.contains txn.category) then []
  else if txn.amount < clause.amount_threshold then []
  else taxCheck clause txn ++ bidCheck clause txn ++ docCheck clause txn

/-- The applicability filter of spec section 4.1: category membership and
inclusive amount threshold; equivalent to the two early returns of the
source (proved below). -/
def isApplicable (clause : ParsedClause) (txn : Transaction) : Bool :=
  clause.transaction_types.contains txn.category &&
    decide (clause.amount_threshold ≤ txn.amount)

/-- `runAgent4Simulation` (automationData.ts lines 100-176).  The `now`
argument stands for `new Date().toISOString()`. -/
def runAgent4Simulation (now : String) (clauses : List ParsedClause)
    (transactions : List Transaction) : List ComplianceResult :=
  transactions.map fun txn =>
    let violations := clauses.foldl (fun acc clause => acc ++ checkClause txn clause) []
    let violationCount := violations.length
    let riskScore := min ((violationCount : ℚ) * (3 / 10)) (99 / 100)
    { transaction_id := txn.id
      compliance_status := if violationCount > 0 then Status.VIOLATION else Status.COMPLIANT
      violations := violations
      overall_risk_score := round2 riskScore
      checked_at := now }

/-- The recommendation built from one violation in `runAgent5Simulation`
(automationData.ts lines 183-188). -/
def mkRecommendation (v : Violation) : Recommendation :=
  { violation_type := v.type
    action := jsOrString v.corrective_action "Review transaction"
    priority := if v.severity = Severity.high then Priority.HIGH else Priority.MEDIUM
    deadline := if v.severity = Severity.high then "Immediate" else "7-14 days" }

/-- JS `.map` with a possibly-faulting body: the whole call faults (`none`)
as soon as one element faults. -/
def mapOption (f : α → Option β) : List α → Option (List β)
  | [] => some []
  | a :: l =>
    match f a, mapOption f l with
    | some b, some bs => some (b :: bs)
    | _, _ => none

/-- The body of the `.map` of `runAgent5Simulation` (automationData.ts
lines 181-204): the source looks the transaction up with
`transactions.find(t => t.id === res.transaction_id)!` and dereferences the
result unconditionally; a missed lookup is the `none` outcome. -/
def synthOne (transactions : List Transaction) (res : ComplianceResult) :
    Option AuditReport :=
  match transactions.find? (fun t => t.id == res.transaction_id) with
  | none => none
  | some txn => some
    { report_id := "RPT_" ++ res.transaction_id
      transaction_id := res.transaction_id
      status := res.compliance_status
      summary := "Transaction " ++ res.transaction_id ++ " has " ++
        toString res.violations.length ++
        " compliance violation(s). Risk level: " ++
        toString (jsRound (res.overall_risk_score * 100)) ++
        "%. Immediate corrective actions required."
      violations := res.violations
      recommendations := res.violations.map mkRecommendation
      risk_score := res.overall_risk_score
      transaction_details :=
        { amount := txn.amount
          vendor := txn.vendor_name
          category := txn.category
          tax_paid := txn.tax_paid } }

/-- `runAgent5Simulation` (automationData.ts lines 179-206). -/
def runAgent5Simulation (results : List ComplianceResult)
    (transactions : List Transaction) : Option (List AuditReport) :=
  mapOption (synthOne transactions)
    (results.filter fun r => r.compliance_status == Status.VIOLATION)

/-- A compliance result with its `checked_at` timestamp erased, for stating
determinism up to the evaluation timestamp. -/
def stripTime (r : ComplianceResult) : String × Status × List Violation × ℚ :=
  (r.transaction_id, r.compliance_status, r.violations, r.overall_risk_score)

/-! Concrete data for witnesses and counterexamples.  The two clauses mirror
the output of `runAgent2Simulation` on the sample regulations, and the two
transactions mirror `sampleTransactions`, all from automationData.ts. -/

/-- The GST clause produced by `runAgent2Simulation` (automationData.ts
lines 39-50). -/
def gstClause : ParsedClause :=
  { id := "2024_GST_CIRCULAR_045_CLAUSE_1"
    clause_id := "2024_GST_CIRCULAR_045_CLAUSE_1"
    regulation_id := "2024_GST_CIRCULAR_045"
    rule_name := "CGST@18% on infrastructure supplies"
    transaction_types := ["procurement", "construction"]
    amount_threshold := 1000000
    tax_rate := some 18
    min_bids := none
    required_documents := ["vendor_cert", "invoice", "project_order"]
    severity := Severity.high
    description := some "For construction purchases >10L, GST must be 18%" }

/-- The procurement clause produced by `runAgent2Simulation`
(automationData.ts lines 52-63). -/
def procurementClause : ParsedClause :=
  { id := "2024_PROCUREMENT_RULE_12_CLAUSE_1"
    clause_id := "2024_PROCUREMENT_RULE_12_CLAUSE_1"
    regulation_id := "2024_PROCUREMENT_RULE_12"
    rule_name := "Minimum 3 competitive bids"
    transaction_types := ["procurement", "construction", "services"]
    amount_threshold := 1000000
    tax_rate := none
    min_bids := some 3
    required_documents := ["bid_summary", "comparative_statement"]
    severity := Severity.high
    description := some "Procurement >10L requires at least 3 competitive bids." }

/-- First sample transaction (automationData.ts lines 71-83). -/
def txn145 : Transaction :=
  { id := "TXN_2024_FINANCE_00145"
    amount := 2500000
    vendor_name := "ABC Infrastructure Ltd."
    category := "construction"
    department := some "PWD_TELANGANA"
    tax_paid := 125000
    bids_count := some 2
    documents_attached := ["invoice.pdf", "grn.pdf"]
    date := "2024-12-25"
    description := none
    data_completeness := some 85
    missing_fields := some ["project_order"] }

/-- Second sample transaction (automationData.ts lines 84-96). -/
def txn146 : Transaction :=
  { id := "TXN_2024_FINANCE_00146"
    amount := 500000
    vendor_name := "TechSoft Solutions"
    category := "software"
    department := some "IT_DEPT"
    tax_paid := 90000
    bids_count := some 1
    documents_attached := ["invoice.pdf", "contract.pdf"]
    date := "2024-12-26"
    description := none
    data_completeness := some 100
    missing_fields := some [] }

/-- A transaction whose amount sits exactly on the GST clause's threshold,
for the inclusive-comparison half of the applicability claim. -/
def eqTxn : Transaction :=
  { id := "TXN_EQ"
    amount := 1000000
    vendor_name := "Edge Vendor"
    category := "construction"
    department := none
    tax_paid := 180000
    bids_count := some 3
    documents_attached := []
    date := "2025-01-01"
    description := none
    data_completeness := none
    missing_fields := none }

/-- A clause with a tax rate over a negative applicability range, for the
over-payment counterexample. -/
def negClause : ParsedClause :=
  { id := "NEG_CLAUSE_1"
    clause_id := "NEG_CLAUSE_1"
    regulation_id := "NEG_REG"
    rule_name := "tax on refunds"
    transaction_types := ["refund"]
    amount_threshold := -100
    tax_rate := some 18
    min_bids := none
    required_documents := []
    severity := Severity.medium
    description := none }

/-- A transaction with a negative amount that pays exactly the expected
(negative) tax. -/
def negTxn : Transaction :=
  { id := "TXN_NEG"
    amount := -100
    vendor_name := "Refund Vendor"
    category := "refund"
    department := none
    tax_paid := -18
    bids_count := none
    documents_attached := []
    date := "2025-01-02"
    description := none
    data_completeness := none
    missing_fields := none }

/-- The evaluator's output on `txn145` against the procurement clause alone:
a bidding violation and two document violations, risk `0.9`. -/
def r145 : ComplianceResult :=
  { transaction_id := "TXN_2024_FINANCE_00145"
    compliance_status := Status.VIOLATION
    violations := bidCheck procurementClause txn145 ++ docCheck procurementClause txn145
    overall_risk_score := 9 / 10
    checked_at := "T" }

/-- The evaluator's output on `txn146` (category "software") against both
demo clauses: compliant, no violations, risk `0`. -/
def r146 : ComplianceResult :=
  { transaction_id := "TXN_2024_FINANCE_00146"
    compliance_status := Status.COMPLIANT
    violations := []
    overall_risk_score := 0
    checked_at := "T" }

/-- The audit report the synthesizer produces from `r145` and `txn145`. -/
def report145 : AuditReport :=
  { report_id := "RPT_TXN_2024_FINANCE_00145"
    transaction_id := "TXN_2024_FINANCE_00145"
    status := Status.VIOLATION
    summary := "Transaction TXN_2024_FINANCE_00145 has 3 compliance violation(s). Risk level: 90%. Immediate corrective actions required."
    violations := bidCheck procurementClause txn145 ++ docCheck procurementClause txn145
    recommendations := (bidCheck procurementClause txn145 ++ docCheck procurementClause txn145).map mkRecommendation
    risk_score := 9 / 10
    transaction_details :=
      { amount := 2500000
        vendor := "ABC Infrastructure Ltd."
        category := "construction"
        tax_paid := 125000 } }

/-! Structural lemmas about the evaluator. -/

/-- Accumulating with `forEach`/push over a list is concatenation of the
per-element contributions. -/
theorem foldl_append_eq_flatMap (f : α → List β) :
    ∀ (l : List α) (init : List β),
      l.foldl (fun acc a => acc ++ f a) init = init ++ l.flatMap f := by
  intro l
  induction l with
  | nil => intro init; simp
  | cons a t ih =>
    intro init
    simp only [List.foldl_cons, List.flatMap_cons, ih, List.append_assoc]

/-- The two early returns of the clause loop are exactly the applicability
filter of spec section 4.1. -/
theorem checkClause_eq (txn : Transaction) (clause : ParsedClause) :
    checkClause txn clause =
      if isApplicable clause txn
      then taxCheck clause txn ++ bidCheck clause txn ++ docCheck clause txn
      else [] := by
  unfold checkClause isApplicable
  by_cases hc : txn.category ∈ clause.transaction_types
  · by_cases ha : txn.amount < clause.amount_threshold
    · simp [hc, ha, not_le.mpr ha]
    · simp [hc, ha, not_lt.mp ha]
  · simp [hc]

/-- The document guard is redundant: with no required tags the loop body is
empty anyway. -/
theorem docCheck_eq (clause : ParsedClause) (txn : Transaction) :
    docCheck clause txn =
      clause.required_documents.flatMap fun reqDoc =>
        if hasDoc txn reqDoc then [] else [docViolation clause reqDoc] := by
  unfold docCheck
  cases h : clause.required_documents with
  | nil => simp
  | cons d t => simp

/-- The violation list of each result, as the in-order concatenation of the
per-clause contributions. -/
theorem runAgent4_violations (now : String) (clauses : List ParsedClause)
    (transactions : List Transaction) :
    (runAgent4Simulation now clauses transactions).map ComplianceResult.violations =
      transactions.map fun txn => clauses.flatMap (checkClause txn) := by
  unfold runAgent4Simulation
  rw [List.map_map]
  apply List.map_congr_left
  intro txn _
  simp only [Function.comp]
  rw [foldl_append_eq_flatMap, List.nil_append]

/-! Arithmetic lemmas about the risk score. -/

/-- Rounding to two decimals is the identity on exact hundredths. -/
theorem round2_intCast_div (z : ℤ) : round2 ((z : ℚ) / 100) = (z : ℚ) / 100 := by
  unfold round2
  have h : (z : ℚ) / 100 * 100 = (z : ℚ) := by field_simp
  have h2 : ⌊(1 : ℚ) / 2⌋ = 0 := by
    rw [Int.floor_eq_zero_iff, Set.mem_Ico]
    constructor <;> norm_num
  rw [h, Int.floor_int_add, h2]
  push_cast
  ring

/-- Every value of `min(count * 0.3, 0.99)` is an exact hundredth, so the
two-decimal rounding of the source is the identity on it. -/
theorem round2_risk (n : ℕ) :
    round2 (min ((n : ℚ) * (3 / 10)) (99 / 100)) = min ((n : ℚ) * (3 / 10)) (99 / 100) := by
  rcases le_or_lt ((n : ℚ) * (3 / 10)) (99 / 100) with h | h
  · rw [min_eq_left h]
    have e : (n : ℚ) * (3 / 10) = ((30 * n : ℤ) : ℚ) / 100 := by push_cast; ring
    rw [e, round2_intCast_div]
  · rw [min_eq_right h.le]
    have e : (99 : ℚ) / 100 = ((99 : ℤ) : ℚ) / 100 := by norm_num
    rw [e, round2_intCast_div]

/-- The saturating risk score is zero exactly on an empty violation count. -/
theorem risk_zero_iff (n : ℕ) :
    min ((n : ℚ) * (3 / 10)) (99 / 100) = 0 ↔ n = 0 := by
  constructor
  · intro h
    by_contra hn
    have h1 : (1 : ℚ) ≤ (n : ℚ) := by exact_mod_cast Nat.one_le_iff_ne_zero.mpr hn
    have h3 : (0 : ℚ) < min ((n : ℚ) * (3 / 10)) (99 / 100) := by
      apply lt_min <;> nlinarith
    rw [h] at h3
    exact lt_irrefl 0 h3
  · intro h
    subst h
    rw [Nat.cast_zero, zero_mul]
    exact min_eq_left (by norm_num)

/-! Per-kind classification of the three checkers. -/

/-- Every violation the tax block pushes is a TAX_MISMATCH. -/
theorem taxCheck_types (clause : ParsedClause) (txn : Transaction) :
    ∀ v ∈ taxCheck clause txn, v.type = VKind.TAX_MISMATCH := by
  intro v hv
  unfold taxCheck at hv
  cases h : clause.tax_rate with
  | none => rw [h] at hv; cases hv
  | some rate =>
    rw [h] at hv
    dsimp only at hv
    split at hv
    · rw [List.mem_singleton] at hv
      subst hv
      rfl
    · cases hv

/-- Every violation the bidding block pushes is a BIDDING_REQUIREMENT. -/
theorem bidCheck_types (clause : ParsedClause) (txn : Transaction) :
    ∀ v ∈ bidCheck clause txn, v.type = VKind.BIDDING_REQUIREMENT := by
  intro v hv
  unfold bidCheck at hv
  cases h : clause.min_bids with
  | none => rw [h] at hv; cases hv
  | some m =>
    rw [h] at hv
    dsimp only at hv
    split at hv
    · rw [List.mem_singleton] at hv
      subst hv
      rfl
    · cases hv

/-- Every violation the document block pushes is a MISSING_DOCUMENT. -/
theorem docCheck_types (clause : ParsedClause) (txn : Transaction) :
    ∀ v ∈ docCheck clause txn, v.type = VKind.MISSING_DOCUMENT := by
  intro v hv
  rw [docCheck_eq, List.mem_flatMap] at hv
  obtain ⟨reqDoc, -, hv⟩ := hv
  split at hv
  · cases hv
  · rw [List.mem_singleton] at hv
    subst hv
    rfl

/-- Filtering a kind-homogeneous violation list by a different kind leaves
nothing. -/
theorem filter_kind_eq_nil {l : List Violation} {k k' : VKind}
    (h : ∀ v ∈ l, v.type = k) (hk : k ≠ k') :
    l.filter (fun v => v.type == k') = [] := by
  rw [List.filter_eq_nil_iff]
  intro v hv
  simp only [h v hv, beq_iff_eq]
  exact hk

/-- Filtering a kind-homogeneous violation list by its own kind keeps
everything. -/
theorem filter_kind_eq_self {l : List Violation} {k : VKind}
    (h : ∀ v ∈ l, v.type = k) :
    l.filter (fun v => v.type == k) = l := by
  rw [List.filter_eq_self]
  intro v hv
  simp [h v hv]

/-- On an applicable pair, the TAX_MISMATCH violations of the clause are
exactly the tax block's output. -/
theorem checkClause_filter_tax {clause : ParsedClause} {txn : Transaction}
    (happ : isApplicable clause txn = true) :
    (checkClause txn clause).filter (fun v => v.type == VKind.TAX_MISMATCH) =
      taxCheck clause txn := by
  rw [checkClause_eq, happ, if_pos rfl, List.filter_append, List.filter_append,
    filter_kind_eq_self (taxCheck_types clause txn),
    filter_kind_eq_nil (bidCheck_types clause txn) (by decide),
    filter_kind_eq_nil (docCheck_types clause txn) (by decide),
    List.append_nil, List.append_nil]

/-- On an applicable pair, the BIDDING_REQUIREMENT violations of the clause
are exactly the bidding block's output. -/
theorem checkClause_filter_bid {clause : ParsedClause} {txn : Transaction}
    (happ : isApplicable clause txn = true) :
    (checkClause txn clause).filter (fun v => v.type == VKind.BIDDING_REQUIREMENT) =
      bidCheck clause txn := by
  rw [checkClause_eq, happ, if_pos rfl, List.filter_append, List.filter_append,
    filter_kind_eq_nil (taxCheck_types clause txn) (by decide),
    filter_kind_eq_self (bidCheck_types clause txn),
    filter_kind_eq_nil (docCheck_types clause txn) (by decide),
    List.append_nil, List.nil_append]

/-- On an applicable pair, the MISSING_DOCUMENT violations of the clause are
exactly the document block's output. -/
theorem checkClause_filter_doc {clause : ParsedClause} {txn : Transaction}
    (happ : isApplicable clause txn = true) :
    (checkClause txn clause).filter (fun v => v.type == VKind.MISSING_DOCUMENT) =
      docCheck clause txn := by
  rw [checkClause_eq, happ, if_pos rfl, List.filter_append, List.filter_append,
    filter_kind_eq_nil (taxCheck_types clause txn) (by decide),
    filter_kind_eq_nil (bidCheck_types clause txn) (by decide),
    filter_kind_eq_self (docCheck_types clause txn),
    List.nil_append, List.nil_append]

/-- A per-tag conditional push is the map over the failing tags. -/
theorem flatMap_if_eq_filter_map {α β : Type} (l : List α) (p : α → Bool) (g : α → β) :
    (l.flatMap fun a => if p a then [] else [g a]) =
      (l.filter fun a => !(p a)).map g := by
  induction l with
  | nil => simp
  | cons a t ih =>
    rw [List.flatMap_cons, ih, List.filter_cons]
    by_cases h : p a
    · simp [h]
    · simp [h]

/-! Lemmas about the faulting map of the report synthesizer. -/

/-- If no element faults, the JS map completes. -/
theorem mapOption_isSome {α β : Type} (f : α → Option β) (l : List α)
    (h : ∀ a ∈ l, (f a).isSome) : (mapOption f l).isSome := by
  induction l with
  | nil => rfl
  | cons a t ih =>
    obtain ⟨b, hb⟩ := Option.isSome_iff_exists.mp (h a (List.mem_cons_self a t))
    obtain ⟨bs, hbs⟩ :=
      Option.isSome_iff_exists.mp (ih fun x hx => h x (List.mem_cons_of_mem a hx))
    simp [mapOption, hb, hbs]

/-- If some element faults, the whole JS map faults. -/
theorem mapOption_eq_none {α β : Type} (f : α → Option β) (l : List α) (a : α)
    (ha : a ∈ l) (hfa : f a = none) : mapOption f l = none := by
  induction l with
  | nil => cases ha
  | cons x t ih =>
    rcases List.mem_cons.mp ha with rfl | hmem
    · cases h : mapOption f t <;> simp [mapOption, hfa, h]
    · cases hfx : f x <;> simp [mapOption, hfx, ih hmem]

/-- Every element of a completed JS map comes from some input element. -/
theorem mapOption_mem {α β : Type} (f : α → Option β) : ∀ (l : List α) (out : List β),
    mapOption f l = some out → ∀ b ∈ out, ∃ a ∈ l, f a = some b := by
  intro l
  induction l with
  | nil =>
    intro out h b hb
    cases h
    cases hb
  | cons x t ih =>
    intro out h b hb
    unfold mapOption at h
    cases hfx : f x with
    | none => rw [hfx] at h; cases h
    | some bx =>
      rw [hfx] at h
      cases hmt : mapOption f t with
      | none => rw [hmt] at h; cases h
      | some bs =>
        rw [hmt] at h
        cases h
        rcases List.mem_cons.mp hb with rfl | hb2
        · exact ⟨x, List.mem_cons_self x t, hfx⟩
        · obtain ⟨a, ha, hfa⟩ := ih bs hmt b hb2
          exact ⟨a, List.mem_cons_of_mem x ha, hfa⟩

/-! Evaluation of the demo data, for the witnesses. -/

theorem floor_half : ⌊(1 : ℚ) / 2⌋ = 0 := by
  rw [Int.floor_eq_zero_iff, Set.mem_Ico]
  constructor <;> norm_num

theorem round2_nine : round2 (min (((3 : ℕ) : ℚ) * (3 / 10)) (99 / 100)) = 9 / 10 := by
  rw [round2_risk]
  have h : ((3 : ℕ) : ℚ) * (3 / 10) = 9 / 10 := by norm_num
  rw [h, min_eq_left (by norm_num)]

theorem round2_zeroN : round2 (min (((0 : ℕ) : ℚ) * (3 / 10)) (99 / 100)) = 0 := by
  rw [round2_risk]
  have h : ((0 : ℕ) : ℚ) * (3 / 10) = 0 := by norm_num
  rw [h, min_eq_left (by norm_num)]

theorem jsRound_ninety : jsRound ((9 : ℚ) / 10 * 100) = 90 := by
  unfold jsRound
  have h : (9 : ℚ) / 10 * 100 = ((90 : ℤ) : ℚ) := by norm_num
  rw [h, Int.floor_int_add, floor_half]
  rfl

/-- The JS map on a one-element list. -/
theorem mapOption_singleton {α β : Type} (f : α → Option β) (a : α) :
    mapOption f [a] = (f a).map (fun b => [b]) := by
  cases h : f a <;> simp [mapOption, h]

/-- Evaluating the demo violating transaction against the procurement clause
alone yields `r145`. -/
theorem run145_eq : runAgent4Simulation "T" [procurementClause] [txn145] = [r145] := by
  unfold runAgent4Simulation
  rw [List.map_cons, List.map_nil]
  congr 1
  show (⟨"TXN_2024_FINANCE_00145", Status.VIOLATION,
      bidCheck procurementClause txn145 ++ docCheck procurementClause txn145,
      round2 (min (((3 : ℕ) : ℚ) * (3 / 10)) (99 / 100)), "T"⟩ : ComplianceResult) = r145
  rw [round2_nine]
  rfl

/-- Evaluating the demo software transaction against both demo clauses
yields the compliant `r146`. -/
theorem run146_eq : runAgent4Simulation "T" [gstClause, procurementClause] [txn146] = [r146] := by
  unfold runAgent4Simulation
  rw [List.map_cons, List.map_nil]
  congr 1
  show (⟨"TXN_2024_FINANCE_00146", Status.COMPLIANT, [],
      round2 (min (((0 : ℕ) : ℚ) * (3 / 10)) (99 / 100)), "T"⟩ : ComplianceResult) = r146
  rw [round2_zeroN]
  rfl

/-- Synthesizing the report for `r145` with its transaction present yields
`report145`. -/
theorem run5_eq : runAgent5Simulation [r145] [txn145] = some [report145] := by
  unfold runAgent5Simulation
  rw [show (([r145] : List ComplianceResult).filter
      fun r => r.compliance_status == Status.VIOLATION) = [r145] from rfl]
  rw [mapOption_singleton]
  have h1 : synthOne [txn145] r145 = some
      { report145 with
        summary := ("Transaction TXN_2024_FINANCE_00145 has 3 compliance violation(s). Risk level: "
          ++ toString (jsRound ((9 : ℚ) / 10 * 100))
          ++ "%. Immediate corrective actions required.") } := rfl
  rw [h1, jsRound_ninety]
  rfl

/-! The claims. -/

/-- C1: every `ComplianceResult` produced by the evaluator has status
VIOLATION if and only if its violations list is non-empty (COMPLIANT iff the
list is empty). -/
theorem status_iff_violations (now : String) (clauses : List ParsedClause)
    (transactions : List Transaction) :
    ∀ r ∈ runAgent4Simulation now clauses transactions,
      (r.compliance_status = Status.VIOLATION ↔ r.violations ≠ []) := by
  intro r hr
  unfold runAgent4Simulation at hr
  rw [List.mem_map] at hr
  obtain ⟨txn, -, rfl⟩ := hr
  dsimp only
  split
  · next h => exact iff_of_true rfl (List.length_pos.mp h)
  · next h =>
    have hnil := List.length_eq_zero.mp (Nat.eq_zero_of_not_pos h)
    exact iff_of_false (by simp) (not_not_intro hnil)

/-- C2: every result's risk score is `min(0.3 * violationCount, 0.99)`
rounded to two decimals (the rounding is exact), lies in `[0, 0.99]`, and is
zero exactly when the violations list is empty. -/
theorem risk_score_formula (now : String) (clauses : List ParsedClause)
    (transactions : List Transaction) :
    ∀ r ∈ runAgent4Simulation now clauses transactions,
      r.overall_risk_score = round2 (min ((r.violations.length : ℚ) * (3 / 10)) (99 / 100)) ∧
      r.overall_risk_score = min ((r.violations.length : ℚ) * (3 / 10)) (99 / 100) ∧
      0 ≤ r.overall_risk_score ∧ r.overall_risk_score ≤ 99 / 100 ∧
      (r.overall_risk_score = 0 ↔ r.violations = []) := by
  intro r hr
  unfold runAgent4Simulation at hr
  rw [List.mem_map] at hr
  obtain ⟨txn, -, rfl⟩ := hr
  refine ⟨rfl, round2_risk _, ?_, ?_, ?_⟩
  · dsimp only
    rw [round2_risk]
    exact le_min (by positivity) (by norm_num)
  · dsimp only
    rw [round2_risk]
    exact min_le_right _ _
  · dsimp only
    rw [round2_risk, risk_zero_iff]
    exact List.length_eq_zero

/-- C3: a clause whose category set misses the transaction's category, or
whose threshold strictly exceeds the transaction's amount, contributes no
violation at all; a transaction whose amount equals the threshold passes the
filter and is checked (inclusive comparison). -/
theorem applicability_gate (clause : ParsedClause) (txn : Transaction) :
    ((txn.category ∉ clause.transaction_types ∨ txn.amount < clause.amount_threshold) →
      checkClause txn clause = []) ∧
    (txn.category ∈ clause.transaction_types → txn.amount = clause.amount_threshold →
      isApplicable clause txn = true ∧
      checkClause txn clause =
        taxCheck clause txn ++ bidCheck clause txn ++ docCheck clause txn) := by
  constructor
  · intro h
    unfold checkClause
    rcases h with h | h
    · simp [h]
    · by_cases hc : txn.category ∈ clause.transaction_types
      · simp [hc, h]
      · simp [hc]
  · intro hmem heq
    have happ : isApplicable clause txn = true := by
      unfold isApplicable
      simp [hmem, heq]
    refine ⟨happ, ?_⟩
    rw [checkClause_eq, happ]
    simp

/-- C4 (amended): on an applicable pair whose clause defines a tax rate,
exactly one TAX_MISMATCH carrying `expectedTax = amount * rate / 100` and
`claimedTax = taxPaid` is emitted iff `taxPaid < expectedTax * 0.95`; and
provided `expectedTax` is nonnegative, paying at or above the expected tax is
never flagged.  (The unconditional over-payment clause of the original claim
fails for negative expected tax, where `expectedTax * 0.95 > expectedTax`.) -/
theorem tax_mismatch_rule (clause : ParsedClause) (txn : Transaction) (rate : ℚ)
    (hrate : clause.tax_rate = some rate) (happ : isApplicable clause txn = true) :
    (((checkClause txn clause).filter fun v => v.type == VKind.TAX_MISMATCH).map
        (fun v => (v.expected_tax, v.claimed_tax)) =
      if txn.tax_paid < txn.amount * rate / 100 * (95 / 100)
      then [(some (txn.amount * rate / 100), some txn.tax_paid)]
      else []) ∧
    (0 ≤ txn.amount * rate / 100 → txn.amount * rate / 100 ≤ txn.tax_paid →
      ((checkClause txn clause).filter fun v => v.type == VKind.TAX_MISMATCH) = []) := by
  have hfilter := checkClause_filter_tax happ
  constructor
  · rw [hfilter]
    unfold taxCheck
    rw [hrate]
    dsimp only
    by_cases h : txn.tax_paid < txn.amount * rate / 100 * (95 / 100)
    · rw [if_pos h, if_pos h]
      rfl
    · rw [if_neg h, if_neg h]
      rfl
  · intro h0 hle
    rw [hfilter]
    unfold taxCheck
    rw [hrate]
    dsimp only
    rw [if_neg]
    intro hlt
    linarith

/-- C5: on an applicable pair whose clause defines `min_bids`, exactly one
BIDDING_REQUIREMENT violation is emitted iff `actualBids < minimumBids`
(with `actualBids` defaulting to 0), carrying `expectedBids`, `actualBids`
and a corrective action naming the shortfall `minimumBids - actualBids`. -/
theorem bidding_rule (clause : ParsedClause) (txn : Transaction) (m : ℕ)
    (hm : clause.min_bids = some m) (happ : isApplicable clause txn = true) :
    ((checkClause txn clause).filter fun v => v.type == VKind.BIDDING_REQUIREMENT).map
        (fun v => (v.expected_bids, v.actual_bids, v.corrective_action)) =
      (if txn.bids_count.getD 0 < m
       then [(some m, some (txn.bids_count.getD 0),
              some ("Obtain " ++ toString (m - txn.bids_count.getD 0) ++
                " more competitive bid(s)"))]
       else []) := by
  rw [checkClause_filter_bid happ]
  unfold bidCheck
  rw [hm]
  dsimp only
  by_cases h : txn.bids_count.getD 0 < m
  · rw [if_pos h, if_pos h]
    rfl
  · rw [if_neg h, if_neg h]
    rfl

/-- C6: on an applicable pair, a required tag counts as present iff some
attached filename contains it as a case-insensitive substring, and the
clause's MISSING_DOCUMENT violations are exactly one per absent tag, each
carrying that tag as `required_doc`. -/
theorem missing_document_rule (clause : ParsedClause) (txn : Transaction)
    (happ : isApplicable clause txn = true) :
    ((checkClause txn clause).filter (fun v => v.type == VKind.MISSING_DOCUMENT) =
      (clause.required_documents.filter fun reqDoc => !(hasDoc txn reqDoc)).map
        (docViolation clause)) ∧
    (∀ reqDoc : String, hasDoc txn reqDoc = true ↔
      ∃ doc ∈ txn.documents_attached,
        containsSub (lowerChars reqDoc) (lowerChars doc) = true) := by
  constructor
  · rw [checkClause_filter_doc happ, docCheck_eq]
    exact flatMap_if_eq_filter_map clause.required_documents (hasDoc txn) (docViolation clause)
  · intro reqDoc
    simp [hasDoc, List.any_eq_true]

/-- C7: the violation list of each result is the concatenation, in input
clause order, of the per-clause contributions, each of which is the tax
check, then the bidding check, then the document checks in required-tag
order. -/
theorem violations_order (now : String) (clauses : List ParsedClause)
    (transactions : List Transaction) :
    ((runAgent4Simulation now clauses transactions).map ComplianceResult.violations =
      transactions.map fun txn => clauses.flatMap fun clause =>
        if isApplicable clause txn
        then taxCheck clause txn ++ bidCheck clause txn ++ docCheck clause txn
        else []) ∧
    (∀ clause txn, docCheck clause txn =
      clause.required_documents.flatMap fun reqDoc =>
        if hasDoc txn reqDoc then [] else [docViolation clause reqDoc]) := by
  constructor
  · rw [runAgent4_violations]
    apply List.map_congr_left
    intro txn _
    apply List.flatMap_congr
    intro clause _
    exact checkClause_eq txn clause
  · exact fun clause txn => docCheck_eq clause txn

/-- C8: every synthesized report carries exactly one recommendation per
violation, whose priority is HIGH iff the violation's severity is high and
MEDIUM otherwise (never LOW), whose deadline is "Immediate" exactly on HIGH
priority and "7-14 days" otherwise, and whose action is the violation's
corrective action when present and non-empty (JS `||`) and the default
otherwise. -/
theorem recommendation_rule (results : List ComplianceResult)
    (transactions : List Transaction) (reports : List AuditReport)
    (h : runAgent5Simulation results transactions = some reports) :
    ∀ rep ∈ reports,
      rep.recommendations = rep.violations.map (fun v =>
        { violation_type := v.type
          action := jsOrString v.corrective_action "Review transaction"
          priority := if v.severity = Severity.high then Priority.HIGH else Priority.MEDIUM
          deadline := if v.severity = Severity.high then "Immediate" else "7-14 days" }) ∧
      (rep.recommendations.all fun rec =>
        decide (rec.priority ≠ Priority.LOW) &&
        ((rec.deadline == "Immediate") == (rec.priority == Priority.HIGH))) = true := by
  intro rep hrep
  unfold runAgent5Simulation at h
  obtain ⟨res, hres, hfr⟩ := mapOption_mem _ _ _ h rep hrep
  unfold synthOne at hfr
  cases hfind : transactions.find? (fun t => t.id == res.transaction_id) with
  | none => rw [hfind] at hfr; cases hfr
  | some txn =>
    rw [hfind] at hfr
    cases hfr
    constructor
    · rfl
    · rw [List.all_eq_true]
      intro rec hrec
      rw [List.mem_map] at hrec
      obtain ⟨v, -, rfl⟩ := hrec
      cases hv : v.severity <;> simp [mkRecommendation, hv]

/-- C9 (amended): the report synthesizer dereferences the transaction lookup
without a guard, so a violating result whose transaction id is absent faults
the whole synthesis (it is not skipped); when every violating result's id
matches some provided transaction, synthesis completes without faulting. -/
theorem agent5_guard (results : List ComplianceResult) (transactions : List Transaction) :
    ((∀ r ∈ results, r.compliance_status = Status.VIOLATION →
        (transactions.find? fun t => t.id == r.transaction_id).isSome) →
      (runAgent5Simulation results transactions).isSome) ∧
    (∀ r ∈ results, r.compliance_status = Status.VIOLATION →
      (transactions.find? fun t => t.id == r.transaction_id) = none →
      runAgent5Simulation results transactions = none) := by
  constructor
  · intro h
    unfold runAgent5Simulation
    apply mapOption_isSome
    intro res hres
    rw [List.mem_filter] at hres
    obtain ⟨hin, hstat⟩ := hres
    have hsome := h res hin (by simpa using hstat)
    unfold synthOne
    cases hfind : transactions.find? (fun t => t.id == res.transaction_id) with
    | none => rw [hfind] at hsome; cases hsome
    | some txn => rfl
  · intro r hr hstat hfind
    unfold runAgent5Simulation
    apply mapOption_eq_none _ _ r
    · rw [List.mem_filter]
      exact ⟨hr, by simp [hstat]⟩
    · unfold synthOne
      rw [hfind]

/-- C10: the evaluator is deterministic: the wall-clock argument influences
only the `checked_at` field; status, violations and risk score are a pure
function of the clause and transaction lists. -/
theorem evaluator_deterministic (now₁ now₂ : String) (clauses : List ParsedClause)
    (transactions : List Transaction) :
    (runAgent4Simulation now₁ clauses transactions).map stripTime =
      (runAgent4Simulation now₂ clauses transactions).map stripTime := by
  unfold runAgent4Simulation
  rw [List.map_map, List.map_map]
  exact List.map_congr_left fun txn _ => rfl


/-- Unfolding the tax block when the clause's rate is known. -/
theorem taxCheck_of_rate (clause : ParsedClause) (txn : Transaction) (rate : ℚ)
    (h : clause.tax_rate = some rate) :
    taxCheck clause txn =
      if txn.tax_paid < txn.amount * rate / 100 * (95 / 100) then
        [{ type := VKind.TAX_MISMATCH
           clause_id := clause.clause_id
           severity := clause.severity
           description := "Tax mismatch: Expected ₹" ++ fmtQ (txn.amount * rate / 100) ++
             ", claimed ₹" ++ fmtQ txn.tax_paid
           expected_tax := some (txn.amount * rate / 100)
           claimed_tax := some txn.tax_paid
           expected_bids := none
           actual_bids := none
           required_doc := none
           corrective_action := some ("Adjust tax to ₹" ++ fmtQ (txn.amount * rate / 100)) }]
      else [] := by
  unfold taxCheck
  rw [h]

/-- C4 counterexample: with a negative amount the expected tax is negative,
and a transaction paying exactly the expected tax (at expected, hence "at or
above") is still flagged with a TAX_MISMATCH, so the unconditional
"over-payment is never flagged" clause of the claim fails on the code. -/
theorem tax_overpayment_flagged :
    negTxn.tax_paid = negTxn.amount * 18 / 100 ∧
    ((checkClause negTxn negClause).filter fun v => v.type == VKind.TAX_MISMATCH).length = 1 := by
  constructor
  · show (-18 : ℚ) = (-100 : ℚ) * 18 / 100
    norm_num
  · have happ : isApplicable negClause negTxn = true := by decide
    rw [checkClause_filter_tax happ, taxCheck_of_rate negClause negTxn 18 rfl]
    split
    · rfl
    · next hfalse =>
      exfalso
      apply hfalse
      show (-18 : ℚ) < (-100 : ℚ) * 18 / 100 * (95 / 100)
      norm_num

/-- C9 counterexample: a violating result whose transaction id matches no
provided transaction makes the synthesis fault at the unchecked lookup
(the `none` outcome), rather than completing with that entry skipped. -/
theorem agent5_unmatched_faults :
    r145.compliance_status = Status.VIOLATION ∧
    runAgent5Simulation [r145] [] = none :=
  ⟨rfl, rfl⟩

/-- Witness for C1 at the demo data: the violating result of `txn145`. -/
theorem status_iff_violations_witness :
    r145 ∈ runAgent4Simulation "T" [procurementClause] [txn145] ∧
    (r145.compliance_status = Status.VIOLATION ↔ r145.violations ≠ []) := by
  have hmem : r145 ∈ runAgent4Simulation "T" [procurementClause] [txn145] := by
    rw [run145_eq]
    exact List.mem_singleton.mpr rfl
  exact ⟨hmem, status_iff_violations "T" [procurementClause] [txn145] r145 hmem⟩

/-- Witness for C2 at the demo data: three violations give risk `0.9`. -/
theorem risk_score_formula_witness :
    r145 ∈ runAgent4Simulation "T" [procurementClause] [txn145] ∧
    (r145.overall_risk_score = round2 (min ((r145.violations.length : ℚ) * (3 / 10)) (99 / 100)) ∧
     r145.overall_risk_score = min ((r145.violations.length : ℚ) * (3 / 10)) (99 / 100) ∧
     0 ≤ r145.overall_risk_score ∧ r145.overall_risk_score ≤ 99 / 100 ∧
     (r145.overall_risk_score = 0 ↔ r145.violations = [])) := by
  have hmem : r145 ∈ runAgent4Simulation "T" [procurementClause] [txn145] := by
    rw [run145_eq]
    exact List.mem_singleton.mpr rfl
  exact ⟨hmem, risk_score_formula "T" [procurementClause] [txn145] r145 hmem⟩

/-- Witness for C3: the software transaction is outside the GST clause's
categories and gets no violations from it; the at-threshold transaction
passes the filter. -/
theorem applicability_gate_witness :
    txn146.category ∉ gstClause.transaction_types ∧
    checkClause txn146 gstClause = [] ∧
    isApplicable gstClause eqTxn = true := by
  have h1 : txn146.category ∉ gstClause.transaction_types := by decide
  refine ⟨h1, (applicability_gate gstClause txn146).1 (Or.inl h1), ?_⟩
  exact ((applicability_gate gstClause eqTxn).2 (by decide) rfl).1

/-- Witness for C4 (amended) at the demo GST clause and `txn145`. -/
theorem tax_mismatch_rule_witness :
    gstClause.tax_rate = some 18 ∧ isApplicable gstClause txn145 = true ∧
    (((checkClause txn145 gstClause).filter fun v => v.type == VKind.TAX_MISMATCH).map
        (fun v => (v.expected_tax, v.claimed_tax)) =
      if txn145.tax_paid < txn145.amount * 18 / 100 * (95 / 100)
      then [(some (txn145.amount * 18 / 100), some txn145.tax_paid)]
      else []) :=
  ⟨rfl, by decide, (tax_mismatch_rule gstClause txn145 18 rfl (by decide)).1⟩

/-- Witness for C5 at the demo procurement clause and `txn145` (2 of 3
required bids). -/
theorem bidding_rule_witness :
    procurementClause.min_bids = some 3 ∧ isApplicable procurementClause txn145 = true ∧
    ((checkClause txn145 procurementClause).filter fun v => v.type == VKind.BIDDING_REQUIREMENT).map
        (fun v => (v.expected_bids, v.actual_bids, v.corrective_action)) =
      (if txn145.bids_count.getD 0 < 3
       then [(some 3, some (txn145.bids_count.getD 0),
              some ("Obtain " ++ toString (3 - txn145.bids_count.getD 0) ++
                " more competitive bid(s)"))]
       else []) :=
  ⟨rfl, by decide, bidding_rule procurementClause txn145 3 rfl (by decide)⟩

/-- Witness for C6 at the demo GST clause and `txn145` (vendor_cert and
project_order missing, invoice matched case-insensitively in invoice.pdf). -/
theorem missing_document_rule_witness :
    isApplicable gstClause txn145 = true ∧
    (checkClause txn145 gstClause).filter (fun v => v.type == VKind.MISSING_DOCUMENT) =
      (gstClause.required_documents.filter fun reqDoc => !(hasDoc txn145 reqDoc)).map
        (docViolation gstClause) :=
  ⟨by decide, (missing_document_rule gstClause txn145 (by decide)).1⟩

/-- Witness for C8 at the synthesized demo report. -/
theorem recommendation_rule_witness :
    runAgent5Simulation [r145] [txn145] = some [report145] ∧
    report145 ∈ [report145] ∧
    (report145.recommendations = report145.violations.map (fun v =>
        { violation_type := v.type
          action := jsOrString v.corrective_action "Review transaction"
          priority := if v.severity = Severity.high then Priority.HIGH else Priority.MEDIUM
          deadline := if v.severity = Severity.high then "Immediate" else "7-14 days" }) ∧
     (report145.recommendations.all fun rec =>
        decide (rec.priority ≠ Priority.LOW) &&
        ((rec.deadline == "Immediate") == (rec.priority == Priority.HIGH))) = true) :=
  ⟨run5_eq, List.mem_singleton.mpr rfl,
    recommendation_rule [r145] [txn145] [report145] run5_eq report145 (List.mem_singleton.mpr rfl)⟩

/-- Witness for C9 (amended): with the transaction present, synthesis
completes. -/
theorem agent5_guard_witness :
    (runAgent5Simulation [r145] [txn145]).isSome = true :=
  (agent5_guard [r145] [txn145]).1 (by decide)

end Guardly
